import Mathlib

/-!
Verification development for the toolchain-introspection and
artifact-resolution layer of a build orchestrator
(`src/cargo/core/compiler/build_context/target_info.rs`).

The Rust source is shallowly embedded: pure functions become Lean
functions; the `RefCell<HashMap<..>>` memoization table becomes explicit
state passing over an association list; external-process invocations
(`rustc` probes) become an explicitly injected environment recording, per
crate type, the stdout/stderr the probe would produce, together with a
counter of how many probes were issued; fallible code returns `Except`.
Rust string primitives (`split`, `trim`, `contains`, `lines`,
`starts_with`, `ends_with`) are embedded as executable functions over
`List Char`.
-/

/-! ## Rust string primitive embeddings -/

/-- Embedding of Rust `str::split(sep)` restricted to what the source
consumes: the text before the first occurrence of `sep` and the rest
after it, or `none` when `sep` does not occur (for nonempty `sep`).
Occurrences are located leftmost-first, as in Rust. -/
def splitFirst (sep : List Char) : List Char → Option (List Char × List Char)
  | [] => if sep.isPrefixOf ([] : List Char) then some ([], []) else none
  | c :: rest =>
    if sep.isPrefixOf (c :: rest) then some ([], (c :: rest).drop sep.length)
    else
      match splitFirst sep rest with
      | none => none
      | some (a, b) => some (c :: a, b)

/-- Embedding of Rust `str::contains(pat)`: `pat` occurs as a contiguous
run inside `hay`. -/
def strContains (hay pat : String) : Bool :=
  (splitFirst pat.data hay.data).isSome

/-- Embedding of Rust `str::starts_with(pat)`. -/
def strStartsWith (s pat : String) : Bool :=
  pat.data.isPrefixOf s.data

/-- Embedding of Rust `str::ends_with(pat)`. -/
def strEndsWith (s pat : String) : Bool :=
  pat.data.reverse.isPrefixOf s.data.reverse

/-- Embedding of Rust `str::split(c)` for a single-character separator,
with Rust semantics: `"a,,b"` splits into `["a", "", "b"]` and the empty
string splits into `[""]`. -/
def splitOnChar (sep : Char) : List Char → List (List Char)
  | [] => [[]]
  | c :: rest =>
    match splitOnChar sep rest with
    | [] => [[c]]
    | h :: t => if c = sep then [] :: h :: t else (c :: h) :: t

/-- Embedding of Rust `str::trim`: drop whitespace from both ends. -/
def trimChars (cs : List Char) : List Char :=
  ((cs.dropWhile Char.isWhitespace).reverse.dropWhile Char.isWhitespace).reverse

/-- Embedding of Rust `str::lines`: split at `'\n'`, drop the optional
final empty piece, and strip one trailing `'\r'` from each line. -/
def rustLines (s : String) : List String :=
  let parts := splitOnChar '\n' s.data
  let parts :=
    match parts.getLast? with
    | some [] => parts.dropLast
    | _ => parts
  parts.map fun cs =>
    String.mk (match cs.getLast? with
               | some '\r' => cs.dropLast
               | _ => cs)

/-! ## Artifact kinds (`CrateType`) -/

/-- The artifact kinds probed by the source (`CrateType` in
`crate::core::compiler`). The enum itself is declared outside the file
under verification; its constructors are the ones the source names:
`Bin`, `Lib`, `Rlib`, `Dylib`, `Cdylib`, `Staticlib`, `ProcMacro`. -/
inductive CrateType where
  | Bin
  | Lib
  | Rlib
  | Dylib
  | Cdylib
  | Staticlib
  | ProcMacro
deriving DecidableEq

/-- Modelled from the spec: `CrateType::as_str` lives outside the file
under verification. The canonical kind names are the ones the compiler
uses on its command line (`bin`, `lib`, `rlib`, `dylib`, `cdylib`,
`staticlib`, `proc-macro`); the source's own doc comments use `cdylib`
this way. -/
def CrateType.as_str : CrateType → String
  | .Bin => "bin"
  | .Lib => "lib"
  | .Rlib => "rlib"
  | .Dylib => "dylib"
  | .Cdylib => "cdylib"
  | .Staticlib => "staticlib"
  | .ProcMacro => "proc-macro"

/-- Modelled from the spec: `CrateType::is_dynamic` lives outside the
file under verification. Per the spec's data model, the dynamically
linked kinds are the dynamically-linked library, the C-compatible
dynamic library and the compiler-plugin-style library. -/
def CrateType.is_dynamic : CrateType → Bool
  | .Dylib | .Cdylib | .ProcMacro => true
  | _ => false

/-- Modelled from the spec: `CrateType::is_linkable` lives outside the
file under verification. Linkable kinds are those usable as inputs to a
further compilation (the generic library alias, the statically-linked
library, the dynamically-linked library, and the plugin-style library). -/
def CrateType.is_linkable : CrateType → Bool
  | .Lib | .Rlib | .Dylib | .ProcMacro => true
  | _ => false

/-- Modelled from the spec: `CrateType::requires_upstream_objects` lives
outside the file under verification. Per the spec, pipelined compilation
is possible exactly when no requested kind needs to link against
not-yet-built upstream objects; the metadata-only kinds (the generic
library alias and the statically-linked library) are the ones that do
not. -/
def CrateType.requires_upstream_objects : CrateType → Bool
  | .Lib | .Rlib => false
  | _ => true

/-- The generic-library normalization performed inline at the top of
`TargetInfo::file_types`: `Lib` is rewritten to `Rlib` before lookup. -/
def CrateType.rewrite (ct : CrateType) : CrateType :=
  if ct = CrateType.Lib then CrateType.Rlib else ct

/-! ## Output file descriptors (`FileFlavor`, `FileType`) -/

/-- Kind of each file generated by a unit (`FileFlavor`). -/
inductive FileFlavor where
  | Normal
  | Auxiliary
  | Linkable
  | Rmeta
  | Rcheck
  | DebugInfo
deriving DecidableEq

/-- Type of each file generated by a unit (`FileType`). The Rust field
`prefix` is renamed `pfx` because `prefix` is a Lean keyword. -/
structure FileType where
  flavor : FileFlavor
  crate_type : Option CrateType
  suffix : String
  pfx : String
  should_replace_hyphens : Bool
deriving DecidableEq

/-- `FileType::new_rmeta`: the metadata-only descriptor. Note that even
binaries use the `lib` filename start. -/
def FileType.new_rmeta : FileType :=
  { flavor := FileFlavor.Rmeta
    crate_type := none
    suffix := ".rmeta"
    pfx := "lib"
    should_replace_hyphens := true }

/-- `FileType::new_rcheck`: the lightweight-check metadata descriptor. -/
def FileType.new_rcheck : FileType :=
  { flavor := FileFlavor.Rcheck
    crate_type := none
    suffix := ".rcheck"
    pfx := "lib"
    should_replace_hyphens := true }

/-! ## Probe output parsing (`parse_crate_type`, `output_err_info`) -/

/-- `output_err_info`: error-message helper quoting the command and the
captured output streams. -/
def output_err_info (cmd stdout stderr : String) : String :=
  let result := "command was: " ++ cmd ++ "\n"
  let result := if stdout ≠ "" then result ++ "\n--- stdout\n" ++ stdout else result
  let result := if stderr ≠ "" then result ++ "\n--- stderr\n" ++ stderr else result
  if stdout = "" ∧ stderr = "" then result ++ "(no output received)" else result

/-- The fixed separator the compiler is asked to place between the
filename start and the filename ending: three underscores. -/
def sep3 : List Char := ['_', '_', '_']

/-- The diagnostic-stream test performed at the top of
`parse_crate_type`: some stderr line contains `unsupported crate type`
or `unknown crate type` together with the backquoted kind name. -/
def not_supported_in (error : String) (crate_type : CrateType) : Bool :=
  (rustLines error).any fun line =>
    (strContains line "unsupported crate type" || strContains line "unknown crate type")
      && strContains line ("crate type `" ++ crate_type.as_str ++ "`")

/-- The line-splitting step of `parse_crate_type`: trim the line, split
on the `___` separator, take the first two parts. `none` models the
"missing separator" failure. -/
def parseFileNameLine (line : String) : Option (String × String) :=
  let t := trimChars line.data
  match splitFirst sep3 t with
  | none => none
  | some (pfxPart, rest) =>
    let sfxPart :=
      match splitFirst sep3 rest with
      | none => rest
      | some (a, _) => a
    some (String.mk pfxPart, String.mk sfxPart)

/-- `parse_crate_type`: takes the probe's stderr and the remaining
stdout lines; returns the optional (filename start, filename ending)
pair together with the lines left unconsumed, or a fatal error message.
An unsupported kind consumes no line and yields `none`. -/
def parse_crate_type (crate_type : CrateType) (cmd output error : String)
    (lines : List String) : Except String (Option (String × String) × List String) :=
  if not_supported_in error crate_type then Except.ok (none, lines)
  else
    match lines with
    | [] =>
      Except.error ("malformed output when learning about crate-type "
        ++ crate_type.as_str ++ " information\n" ++ output_err_info cmd output error)
    | line :: rest =>
      match parseFileNameLine line with
      | none =>
        Except.error ("output of --print=file-names has changed in the compiler, cannot parse\n"
          ++ output_err_info cmd output error)
      | some (pfxPart, sfxPart) => Except.ok (some (pfxPart, sfxPart), rest)

/-! ## The capability record's memoization table and the lazy probe -/

/-- The memoization table behind `TargetInfo::crate_types`
(`RefCell<HashMap<CrateType, Option<(String, String)>>>`), embedded as
an association list; `none` as a stored value means "kind unsupported". -/
def CrateTypesMap : Type := List (CrateType × Option (String × String))

instance : DecidableEq CrateTypesMap :=
  inferInstanceAs (DecidableEq (List (CrateType × Option (String × String))))

/-- HashMap lookup over the association-list embedding. -/
def lookupCT : CrateTypesMap → CrateType → Option (Option (String × String))
  | [], _ => none
  | (k, v) :: rest, ct => if k = ct then some v else lookupCT rest ct

/-- HashMap vacant-entry insertion over the association-list embedding
(only ever performed when the key is absent). -/
def insertCT (s : CrateTypesMap) (ct : CrateType) (v : Option (String × String)) :
    CrateTypesMap :=
  (ct, v) :: s

/-- What one `exec_with_output` probe of the external compiler produces:
its stdout and stderr text. -/
structure ProbeOutput where
  stdout : String
  stderr : String

/-- The external compiler, injected as an environment: `cmd` stands for
the displayed `crate_type_process` command line and `exec` for running
it with `--crate-type <kind>` appended; `none` models process-invocation
failure. -/
structure DiscoverEnv where
  cmd : String
  exec : CrateType → Option ProbeOutput

/-- `TargetInfo::discover_crate_type`: run one single-kind probe and
parse its first stdout line. Each call to this function is one compiler
probe. -/
def discover_crate_type (env : DiscoverEnv) (crate_type : CrateType) :
    Except String (Option (String × String)) :=
  match env.exec crate_type with
  | none =>
    Except.error ("failed to run `rustc` to learn about crate-type "
      ++ crate_type.as_str ++ " information")
  | some out =>
    (parse_crate_type crate_type env.cmd out.stdout out.stderr (rustLines out.stdout)).map
      fun r => r.1

/-! ## The artifact naming resolver (`TargetInfo::file_types`) -/

/-- The descriptor list built by `TargetInfo::file_types` once the
(filename start, filename ending) pair for the rewritten kind is known:
the primary descriptor followed by the platform-conditional companions,
in source order (Windows import/export, Emscripten, separated debug
info). -/
def build_file_types (ct : CrateType) (flavor : FileFlavor) (target_triple pfx sfx : String) :
    List FileType :=
  { flavor := flavor, crate_type := some ct, suffix := sfx, pfx := pfx,
    should_replace_hyphens := decide (ct ≠ CrateType.Bin) } ::
  ((if ct.is_dynamic = true then
      (if strEndsWith target_triple "-windows-msvc" = true ∧ sfx = ".dll" then
        [{ flavor := FileFlavor.Auxiliary, crate_type := some ct, suffix := ".dll.lib",
           pfx := pfx, should_replace_hyphens := true },
         { flavor := FileFlavor.Auxiliary, crate_type := some ct, suffix := ".dll.exp",
           pfx := pfx, should_replace_hyphens := true }]
      else if strEndsWith target_triple "windows-gnu" = true ∧ sfx = ".dll" then
        [{ flavor := FileFlavor.Auxiliary, crate_type := some ct, suffix := ".dll.a",
           pfx := "lib", should_replace_hyphens := true }]
      else [])
    else []) ++
   (if strStartsWith target_triple "wasm32-" = true ∧ ct = CrateType.Bin ∧ sfx = ".js" then
      [{ flavor := FileFlavor.Auxiliary, crate_type := some ct, suffix := ".wasm",
         pfx := pfx, should_replace_hyphens := true },
       { flavor := FileFlavor.DebugInfo, crate_type := some ct, suffix := ".wasm.map",
         pfx := pfx, should_replace_hyphens := true }]
    else []) ++
   (match ct with
    | CrateType.Bin | CrateType.Dylib | CrateType.Cdylib | CrateType.ProcMacro =>
      if strContains target_triple "-apple-" = true then
        [{ flavor := FileFlavor.DebugInfo, crate_type := some ct,
           suffix := if ct = CrateType.Bin then ".dSYM" else ".dylib.dSYM",
           pfx := pfx, should_replace_hyphens := false }]
      else if strEndsWith target_triple "-msvc" = true then
        [{ flavor := FileFlavor.DebugInfo, crate_type := some ct, suffix := ".pdb",
           pfx := pfx, should_replace_hyphens := true }]
      else []
    | _ => []))

/-- `TargetInfo::file_types`: rewrite the generic library kind, fetch or
lazily discover-and-store the (filename start, filename ending) pair,
and build the descriptor list. The result carries the updated
memoization table and the number of compiler probes issued. -/
def file_types (env : DiscoverEnv) (crate_type : CrateType) (flavor : FileFlavor)
    (target_triple : String) (s : CrateTypesMap) :
    Except String (Option (List FileType)) × CrateTypesMap × Nat :=
  let ct := crate_type.rewrite
  match lookupCT s ct with
  | some info =>
    match info with
    | some (pfx, sfx) =>
      (Except.ok (some (build_file_types ct flavor target_triple pfx sfx)), s, 0)
    | none => (Except.ok none, s, 0)
  | none =>
    match discover_crate_type env ct with
    | Except.error e => (Except.error e, s, 1)
    | Except.ok info =>
      match info with
      | some (pfx, sfx) =>
        (Except.ok (some (build_file_types ct flavor target_triple pfx sfx)),
         insertCT s ct info, 1)
      | none => (Except.ok none, insertCT s ct info, 1)

/-! ## Whole-build-mode resolution (`calc_rustc_outputs`, `rustc_outputs`) -/

/-- Compile modes (`CompileMode` in `crate::core::compiler`; declared
outside the file under verification, with the constructors the source
matches on). `Check` carries its `rustc_check` field. -/
inductive CompileMode where
  | Build
  | Test
  | Bench
  | Check (rustc_check : Bool)
  | Doc
  | Doctest
  | RunCustomBuild
deriving DecidableEq

/-- The loop body of `TargetInfo::calc_rustc_outputs`: iterate the
requested crate types in order, collecting supported descriptors and
unsupported kinds, threading the memoization table and the probe count,
and propagating the first fatal error. -/
def calc_outputs_loop (env : DiscoverEnv) (target_triple : String) :
    List CrateType → CrateTypesMap →
    Except String (List FileType × List CrateType) × CrateTypesMap × Nat
  | [], s => (Except.ok ([], []), s, 0)
  | ct :: rest, s =>
    let flavor := if ct.is_linkable = true then FileFlavor.Linkable else FileFlavor.Normal
    match file_types env ct flavor target_triple s with
    | (Except.error e, s1, k) => (Except.error e, s1, k)
    | (Except.ok v, s1, k) =>
      match calc_outputs_loop env target_triple rest s1 with
      | (Except.error e, s2, m) => (Except.error e, s2, k + m)
      | (Except.ok (fs, us), s2, m) =>
        match v with
        | none => (Except.ok (fs, ct :: us), s2, k + m)
        | some types => (Except.ok (types ++ fs, us), s2, k + m)

/-- `TargetInfo::calc_rustc_outputs`: the normal-build resolution. The
`target_kind.rustc_crate_types()` call is outside the file under
verification, so the requested crate-type list is taken directly as a
parameter standing for its result. After the loop, one metadata-only
descriptor is appended when at least one descriptor was produced and no
requested kind requires upstream objects. -/
def calc_rustc_outputs (env : DiscoverEnv) (crate_types : List CrateType)
    (target_triple : String) (s : CrateTypesMap) :
    Except String (List FileType × List CrateType) × CrateTypesMap × Nat :=
  match calc_outputs_loop env target_triple crate_types s with
  | (Except.error e, s1, k) => (Except.error e, s1, k)
  | (Except.ok (result, unsupported), s1, k) =>
    if (!result.isEmpty) && (!(crate_types.any fun ct => ct.requires_upstream_objects)) then
      (Except.ok (result ++ [FileType.new_rmeta], unsupported), s1, k)
    else
      (Except.ok (result, unsupported), s1, k)

/-- `TargetInfo::rustc_outputs`: dispatch on the compile mode. The outer
`Option` models the source's `panic!` on the documentation, doc-test and
custom-build modes (`none` = contract violation, a panic in Rust). -/
def rustc_outputs (env : DiscoverEnv) (mode : CompileMode)
    (target_crate_types : List CrateType) (target_triple : String) (s : CrateTypesMap) :
    Option (Except String (List FileType × List CrateType) × CrateTypesMap × Nat) :=
  match mode with
  | CompileMode.Build => some (calc_rustc_outputs env target_crate_types target_triple s)
  | CompileMode.Test | CompileMode.Bench =>
    some (match file_types env CrateType.Bin FileFlavor.Normal target_triple s with
          | (Except.error e, s1, k) => (Except.error e, s1, k)
          | (Except.ok (some fts), s1, k) => (Except.ok (fts, []), s1, k)
          | (Except.ok none, s1, k) => (Except.ok ([], [CrateType.Bin]), s1, k))
  | CompileMode.Check rustc_check =>
    some (Except.ok ([if rustc_check then FileType.new_rcheck else FileType.new_rmeta], []),
          s, 0)
  | CompileMode.Doc | CompileMode.Doctest | CompileMode.RunCustomBuild => none

/-! ## The flag resolution chain (`env_args`) -/

/-- Build kinds (`CompileKind`): host, or a specific cross-compilation
target identified by its triple. -/
inductive CompileKind where
  | Host
  | Target (triple : String)
deriving DecidableEq

/-- `CompileKind::is_host`. -/
def CompileKind.is_host : CompileKind → Bool
  | .Host => true
  | .Target _ => false

/-- Conditional-compilation predicates (`Cfg` from `cargo_platform`) are
opaque to this layer: only the externally provided matcher consumes
them. They are embedded as their textual form. -/
def Cfg : Type := String

/-- The build configuration store and process environment consumed by
`env_args`, embedded as an abstract record of the lookups the source
performs: `env` is `std::env::var`, `target_flags` is
`config.get::<Option<StringList>>("target.<triple>.<name>")`,
`target_cfgs` is the `config.target_cfgs()` list paired with each
entry's optional flag list, `matches_key` is the external
`CfgExpr::matches_key`, and the two `build_*` fields come from
`config.build_config()`. Configuration-store I/O errors are outside
this layer (the store is an external collaborator). -/
structure Config where
  env : String → Option String
  target_flags : String → Option (List String)
  target_cfgs : List (String × Option (List String))
  matches_key : String → List Cfg → Bool
  build_rustflags : Option (List String)
  build_rustdocflags : Option (List String)

/-- The environment-variable tokenization in `env_args`: split on the
space character, trim each piece, keep the nonempty ones. -/
def tokenizeFlags (a : String) : List String :=
  ((((splitOnChar ' ' a.data).map trimChars).filter fun cs => !cs.isEmpty).map
    fun cs => String.mk cs)

/-- `env_args`: the flag resolution chain. Layer order as in the
source: the cross-compilation host-isolation early return, then the
process environment variable, then the platform-scoped configuration
(by-name value concatenated with matching `cfg(..)`-conditional
entries), then the global `build.*` value, then nothing. -/
def env_args (config : Config) (requested_kinds : List CompileKind) (host_triple : String)
    (target_cfg : Option (List Cfg)) (kind : CompileKind) (name : String) : List String :=
  if requested_kinds ≠ [CompileKind.Host] ∧ kind.is_host = true then []
  else
    match config.env name with
    | some a => tokenizeFlags a
    | none =>
      let lname := name.toLower
      let target :=
        match kind with
        | CompileKind.Host => host_triple
        | CompileKind.Target t => t
      let key := "target." ++ target ++ "." ++ lname
      let rustflags :=
        (match config.target_flags key with
         | some args => args
         | none => []) ++
        (match target_cfg with
         | none => []
         | some tcfg =>
           (((config.target_cfgs.filterMap fun kv =>
                kv.2.map fun r => (kv.1, r)).filter
              fun kr => config.matches_key kr.1 tcfg).map fun kr => kr.2).flatten)
      if rustflags ≠ [] then rustflags
      else
        match (if lname = "rustflags" then config.build_rustflags
               else config.build_rustdocflags) with
        | some l => l
        | none => []

/-! ## The output fingerprint guard (`RustDocFingerprint`) -/

/-- What one run of `RustDocFingerprint::check_rustdoc_fingerprint`
does to the world: which documentation output directories it purged, in
order, and the verbose version string it wrote into a fresh persisted
record (`none` = no record written). -/
structure GuardAction where
  purged : List String
  wrote : Option String
deriving DecidableEq

/-- `RustDocFingerprint::check_rustdoc_fingerprint`. Inputs embed the
context: `skip` is the `skip_rustdoc_fingerprint` configuration switch;
`actual_vv` is the current compiler's verbose version string;
`readResult` is `paths::read` on the persisted record (`none` = absent
or unreadable); `parseRecord` is `serde_json::from_str` extracting the
stored version string (`none` = unparseable); `doc_dirs` is, per build
kind in order, the documentation output path and whether it exists.
Purging a directory stands for `clean_doc` on it. -/
def check_rustdoc_fingerprint (skip : Bool) (actual_vv : String)
    (readResult : Option String) (parseRecord : String → Option String)
    (doc_dirs : List (String × Bool)) : GuardAction :=
  if skip then { purged := [], wrote := none }
  else
    match readResult with
    | none => { purged := [], wrote := some actual_vv }
    | some rustdoc_data =>
      match parseRecord rustdoc_data with
      | some stored_vv =>
        if stored_vv = actual_vv then { purged := [], wrote := none }
        else
          { purged := (doc_dirs.filter fun d => d.2).map fun d => d.1
            wrote := some actual_vv }
      | none =>
        { purged := (doc_dirs.filter fun d => d.2).map fun d => d.1
          wrote := some actual_vv }

/-! ## Claim C1: fingerprint guard on an absent or unparseable record -/

/-- Claim C1, counterexample. The claim states that whenever the
persisted record is absent *or cannot be parsed*, the guard writes a
fresh record and purges nothing. At this concrete input the record is
present but unparseable, and the guard purges the existing documentation
directory (the source falls through to the purge after the
`serde_json::from_str` `Err` arm), refuting the claim as stated. -/
theorem claim_c1_counterexample :
    check_rustdoc_fingerprint false "rustc 1.99.0 (aabbccdd 2026-01-01)"
        (some "not json") (fun _ => none) [("target/doc", true)] =
      { purged := ["target/doc"], wrote := some "rustc 1.99.0 (aabbccdd 2026-01-01)" }
    ∧ (["target/doc"] : List String) ≠ [] := by
  constructor
  · rfl
  · decide

/-- Claim C1, amended: for every documentation build in which the
persisted fingerprint record is absent (unreadable), the guard writes a
fresh record capturing the current compiler's verbose version string and
purges no documentation output directory. (When the record is present
but unparseable, the source instead purges the existing documentation
directories before writing the fresh record.) -/
theorem claim_c1_amended (actual_vv : String) (parseRecord : String → Option String)
    (doc_dirs : List (String × Bool)) :
    check_rustdoc_fingerprint false actual_vv none parseRecord doc_dirs =
      { purged := [], wrote := some actual_vv } := by
  rfl

/-! ## Claims C3 and C4: the flag resolution chain -/

/-- A concrete configuration with every flag source populated: the
environment variable carries `-C opt-level=3`, a platform-scoped
`target.*.rustflags` value and a global `build.rustflags` value are both
present. -/
def cfgAllLayers : Config :=
  { env := fun n => if n = "RUSTFLAGS" then some "-C opt-level=3" else none
    target_flags := fun _ => some ["--cfg", "from-target-config"]
    target_cfgs := []
    matches_key := fun _ _ => false
    build_rustflags := some ["--cfg", "from-build-config"]
    build_rustdocflags := none }

/-- Claim C3, counterexample. The claim quantifies over *every*
invocation with the environment variable set, but the cross-compilation
host-isolation early return runs before the environment variable is
consulted: with requested kinds `[Target "x86_64-unknown-linux-gnu"]`
and the host kind being resolved, the result is `[]`, not the
tokenization `["-C", "opt-level=3"]` of the set variable. -/
theorem claim_c3_counterexample :
    env_args cfgAllLayers [CompileKind.Target "x86_64-unknown-linux-gnu"]
        "x86_64-unknown-linux-gnu" none CompileKind.Host "RUSTFLAGS" = []
    ∧ cfgAllLayers.env "RUSTFLAGS" = some "-C opt-level=3"
    ∧ tokenizeFlags "-C opt-level=3" = ["-C", "opt-level=3"]
    ∧ ([] : List String) ≠ ["-C", "opt-level=3"] := by
  refine ⟨rfl, rfl, ?_, by decide⟩
  rfl

/-- Claim C3, amended: for every invocation of the flag resolution
chain that is not short-circuited by the cross-compilation
host-isolation rule (that is, unless the requested kinds differ from
`[Host]` while the kind being resolved is the host), if the named
environment variable is set then the result is exactly the
space-delimited, trimmed, non-empty tokens of its value — no
configuration layer is consulted, even when the tokenized result is
empty and regardless of any platform-scoped or global configuration
flags present. Independence from configuration is expressed by the
quantification over every `config` sharing that environment binding. -/
theorem claim_c3_amended (config : Config) (requested_kinds : List CompileKind)
    (host_triple : String) (target_cfg : Option (List Cfg)) (kind : CompileKind)
    (name value : String)
    (hiso : ¬(requested_kinds ≠ [CompileKind.Host] ∧ kind.is_host = true))
    (henv : config.env name = some value) :
    env_args config requested_kinds host_triple target_cfg kind name =
      tokenizeFlags value := by
  unfold env_args
  rw [if_neg hiso, henv]

/-- Claim C3, witness: the amended theorem applied at a concrete input
(requested kinds `[Host]`, host kind, variable set to
`-C opt-level=3`), with the tokenization evaluated. -/
theorem claim_c3_witness :
    env_args cfgAllLayers [CompileKind.Host] "x86_64-unknown-linux-gnu" none
      CompileKind.Host "RUSTFLAGS" = ["-C", "opt-level=3"] := by
  have h := claim_c3_amended cfgAllLayers [CompileKind.Host] "x86_64-unknown-linux-gnu"
    none CompileKind.Host "RUSTFLAGS" "-C opt-level=3" (by decide) rfl
  rw [h]
  rfl

/-- Claim C4: whenever the requested build kinds differ from `[Host]`
and the kind being resolved is the host kind, the flag resolution chain
returns the empty list, whatever the environment and configuration hold. -/
theorem claim_c4 (config : Config) (requested_kinds : List CompileKind)
    (host_triple : String) (target_cfg : Option (List Cfg)) (kind : CompileKind)
    (name : String)
    (h1 : requested_kinds ≠ [CompileKind.Host]) (h2 : kind.is_host = true) :
    env_args config requested_kinds host_triple target_cfg kind name = [] := by
  unfold env_args
  rw [if_pos ⟨h1, h2⟩]

/-- Claim C4, witness: the theorem applied at a concrete input with all
flag sources set. -/
theorem claim_c4_witness :
    env_args cfgAllLayers [CompileKind.Target "aarch64-unknown-linux-gnu"]
      "x86_64-unknown-linux-gnu" none CompileKind.Host "RUSTFLAGS" = [] :=
  claim_c4 cfgAllLayers [CompileKind.Target "aarch64-unknown-linux-gnu"]
    "x86_64-unknown-linux-gnu" none CompileKind.Host "RUSTFLAGS" (by decide) rfl

/-! ## Claims C2 and C8: platform-conditional companion descriptors -/

/-- A concrete probe environment whose external compiler is never
consulted (every probe would fail); used for inputs whose memoization
table is already populated. -/
def envNoProbe : DiscoverEnv :=
  { cmd := "rustc - --crate-name ___ --print=file-names", exec := fun _ => none }

/-- Ending with `-windows-msvc` implies ending with `-msvc`. -/
theorem strEndsWith_msvc_of_windows_msvc (t : String)
    (h : strEndsWith t "-windows-msvc" = true) : strEndsWith t "-msvc" = true := by
  simp only [strEndsWith, List.isPrefixOf_iff_prefix] at h ⊢
  exact List.IsPrefix.trans (by decide) h

/-- Claim C2, counterexample. For the dynamic-library kind on
`x86_64-pc-windows-msvc` with probed pair `("", ".dll")`, the resolver
yields *four* descriptors — the separated-debug-info rule appends a
`.pdb` descriptor after the `.dll`/`.dll.lib`/`.dll.exp` ones — refuting
the claim's "exactly three". -/
theorem claim_c2_counterexample :
    file_types envNoProbe CrateType.Dylib FileFlavor.Linkable "x86_64-pc-windows-msvc"
        [(CrateType.Dylib, some ("", ".dll"))] =
      (Except.ok (some
        [{ flavor := FileFlavor.Linkable, crate_type := some CrateType.Dylib,
           suffix := ".dll", pfx := "", should_replace_hyphens := true },
         { flavor := FileFlavor.Auxiliary, crate_type := some CrateType.Dylib,
           suffix := ".dll.lib", pfx := "", should_replace_hyphens := true },
         { flavor := FileFlavor.Auxiliary, crate_type := some CrateType.Dylib,
           suffix := ".dll.exp", pfx := "", should_replace_hyphens := true },
         { flavor := FileFlavor.DebugInfo, crate_type := some CrateType.Dylib,
           suffix := ".pdb", pfx := "", should_replace_hyphens := true }]),
       [(CrateType.Dylib, some ("", ".dll"))], 0)
    ∧ ([".dll", ".dll.lib", ".dll.exp", ".pdb"] : List String).length ≠ 3 := by
  constructor
  · rfl
  · decide

/-- Claim C2, amended: for the dynamic-library kind, on any target
triple ending in `-windows-msvc` that is not an Apple triple (does not
contain `-apple-`), with probed primary ending `.dll`, the resolver
yields exactly four descriptors — ending `.dll` (primary), `.dll.lib`
and `.dll.exp` (auxiliary), and `.pdb` (debug info) — each with the
primary's filename start. -/
theorem claim_c2_amended (env : DiscoverEnv) (flavor : FileFlavor) (triple : String)
    (s : CrateTypesMap) (pfx : String)
    (hmsvc : strEndsWith triple "-windows-msvc" = true)
    (happle : strContains triple "-apple-" = false)
    (hlook : lookupCT s CrateType.Dylib = some (some (pfx, ".dll"))) :
    file_types env CrateType.Dylib flavor triple s =
      (Except.ok (some
        [{ flavor := flavor, crate_type := some CrateType.Dylib, suffix := ".dll",
           pfx := pfx, should_replace_hyphens := true },
         { flavor := FileFlavor.Auxiliary, crate_type := some CrateType.Dylib,
           suffix := ".dll.lib", pfx := pfx, should_replace_hyphens := true },
         { flavor := FileFlavor.Auxiliary, crate_type := some CrateType.Dylib,
           suffix := ".dll.exp", pfx := pfx, should_replace_hyphens := true },
         { flavor := FileFlavor.DebugInfo, crate_type := some CrateType.Dylib,
           suffix := ".pdb", pfx := pfx, should_replace_hyphens := true }]), s, 0) := by
  have hm : strEndsWith triple "-msvc" = true := strEndsWith_msvc_of_windows_msvc triple hmsvc
  simp only [file_types, show CrateType.rewrite CrateType.Dylib = CrateType.Dylib from rfl,
    hlook]
  simp [build_file_types, CrateType.is_dynamic, hmsvc, happle, hm]

/-- Claim C2, witness: the amended theorem applied on
`aarch64-pc-windows-msvc` with primary pair `("", ".dll")`. -/
theorem claim_c2_witness :
    file_types envNoProbe CrateType.Dylib FileFlavor.Normal "aarch64-pc-windows-msvc"
        [(CrateType.Dylib, some ("", ".dll"))] =
      (Except.ok (some
        [{ flavor := FileFlavor.Normal, crate_type := some CrateType.Dylib,
           suffix := ".dll", pfx := "", should_replace_hyphens := true },
         { flavor := FileFlavor.Auxiliary, crate_type := some CrateType.Dylib,
           suffix := ".dll.lib", pfx := "", should_replace_hyphens := true },
         { flavor := FileFlavor.Auxiliary, crate_type := some CrateType.Dylib,
           suffix := ".dll.exp", pfx := "", should_replace_hyphens := true },
         { flavor := FileFlavor.DebugInfo, crate_type := some CrateType.Dylib,
           suffix := ".pdb", pfx := "", should_replace_hyphens := true }]),
       [(CrateType.Dylib, some ("", ".dll"))], 0) :=
  claim_c2_amended envNoProbe FileFlavor.Normal "aarch64-pc-windows-msvc"
    [(CrateType.Dylib, some ("", ".dll"))] "" (by decide) (by decide) rfl

/-- Claim C8, counterexample. On the Apple-family triple
`wasm32-apple-darwin` (it contains `-apple-`) with probed binary pair
`("", ".js")`, the resolver produces *three* extra descriptors beyond
the primary (`.wasm`, `.wasm.map`, `.dSYM`), refuting the claim's
"exactly one extra descriptor" for every Apple triple. -/
theorem claim_c8_counterexample :
    file_types envNoProbe CrateType.Bin FileFlavor.Normal "wasm32-apple-darwin"
        [(CrateType.Bin, some ("", ".js"))] =
      (Except.ok (some
        [{ flavor := FileFlavor.Normal, crate_type := some CrateType.Bin,
           suffix := ".js", pfx := "", should_replace_hyphens := false },
         { flavor := FileFlavor.Auxiliary, crate_type := some CrateType.Bin,
           suffix := ".wasm", pfx := "", should_replace_hyphens := true },
         { flavor := FileFlavor.DebugInfo, crate_type := some CrateType.Bin,
           suffix := ".wasm.map", pfx := "", should_replace_hyphens := true },
         { flavor := FileFlavor.DebugInfo, crate_type := some CrateType.Bin,
           suffix := ".dSYM", pfx := "", should_replace_hyphens := false }]),
       [(CrateType.Bin, some ("", ".js"))], 0)
    ∧ ([".js", ".wasm", ".wasm.map", ".dSYM"] : List String).length ≠ 1 + 1 := by
  constructor
  · rfl
  · decide

/-- Claim C8, amended: for the binary kind on any Apple-family triple
(containing `-apple-`), provided the triple/ending pair does not also
trigger the Emscripten rule (the triple starts with `wasm32-` while the
probed primary ending is `.js`), exactly one extra descriptor beyond
the primary is produced: a debug-info descriptor with ending `.dSYM`
and the hyphen-to-underscore rewrite flag disabled. -/
theorem claim_c8_amended (env : DiscoverEnv) (flavor : FileFlavor) (triple : String)
    (s : CrateTypesMap) (pfx sfx : String)
    (happle : strContains triple "-apple-" = true)
    (hwasm : ¬(strStartsWith triple "wasm32-" = true ∧ sfx = ".js"))
    (hlook : lookupCT s CrateType.Bin = some (some (pfx, sfx))) :
    file_types env CrateType.Bin flavor triple s =
      (Except.ok (some
        [{ flavor := flavor, crate_type := some CrateType.Bin, suffix := sfx,
           pfx := pfx, should_replace_hyphens := false },
         { flavor := FileFlavor.DebugInfo, crate_type := some CrateType.Bin,
           suffix := ".dSYM", pfx := pfx, should_replace_hyphens := false }]), s, 0) := by
  simp only [file_types, show CrateType.rewrite CrateType.Bin = CrateType.Bin from rfl,
    hlook]
  rw [build_file_types]
  rw [if_neg (by decide : ¬(CrateType.is_dynamic CrateType.Bin = true))]
  rw [if_neg (fun h => hwasm ⟨h.1, h.2.2⟩)]
  simp [happle]

/-- Claim C8, witness: the amended theorem applied on
`x86_64-apple-darwin` with primary pair `("", "")` (executables have no
filename ending there). -/
theorem claim_c8_witness :
    file_types envNoProbe CrateType.Bin FileFlavor.Normal "x86_64-apple-darwin"
        [(CrateType.Bin, some ("", ""))] =
      (Except.ok (some
        [{ flavor := FileFlavor.Normal, crate_type := some CrateType.Bin,
           suffix := "", pfx := "", should_replace_hyphens := false },
         { flavor := FileFlavor.DebugInfo, crate_type := some CrateType.Bin,
           suffix := ".dSYM", pfx := "", should_replace_hyphens := false }]),
       [(CrateType.Bin, some ("", ""))], 0) :=
  claim_c8_amended envNoProbe FileFlavor.Normal "x86_64-apple-darwin"
    [(CrateType.Bin, some ("", ""))] "" "" (by decide) (by decide) rfl

/-! ## Claims C5 and C6: memoization and unsupported kinds -/

/-- Lookup after a vacant insertion finds the inserted value. -/
theorem lookupCT_insert (s : CrateTypesMap) (ct : CrateType)
    (v : Option (String × String)) : lookupCT (insertCT s ct v) ct = some v := by
  simp [insertCT, lookupCT]

/-- A memoization-table hit makes `file_types` leave the table unchanged
and issue zero probes. -/
theorem file_types_stored (env : DiscoverEnv) (ct : CrateType) (flavor : FileFlavor)
    (triple : String) (s : CrateTypesMap) (v : Option (String × String))
    (h : lookupCT s (CrateType.rewrite ct) = some v) :
    (file_types env ct flavor triple s).2 = (s, 0) := by
  cases v with
  | none => simp [file_types, h]
  | some p => cases p with | mk a b => simp [file_types, h]

/-- A memoization-table miss with a successful probe stores the probe's
result and issues exactly one probe. -/
theorem file_types_miss (env : DiscoverEnv) (ct : CrateType) (flavor : FileFlavor)
    (triple : String) (s : CrateTypesMap) (v : Option (String × String))
    (hmiss : lookupCT s (CrateType.rewrite ct) = none)
    (hd : discover_crate_type env (CrateType.rewrite ct) = Except.ok v) :
    (file_types env ct flavor triple s).2 = (insertCT s (CrateType.rewrite ct) v, 1) := by
  cases v with
  | none => simp [file_types, hmiss, hd]
  | some p => cases p with | mk a b => simp [file_types, hmiss, hd]

/-- Whether the lazy single-kind probe would succeed for a kind. -/
def discoverOk (env : DiscoverEnv) (ct : CrateType) : Bool :=
  match discover_crate_type env ct with
  | Except.ok _ => true
  | Except.error _ => false

/-- A sequence of resolver calls for one artifact kind against one
capability record: each list element is the (flavor, triple) argument
pair of one `file_types` call; the result is the final memoization table
and the total number of compiler probes issued. -/
def file_types_iter (env : DiscoverEnv) (ct : CrateType) :
    List (FileFlavor × String) → CrateTypesMap → CrateTypesMap × Nat
  | [], s => (s, 0)
  | (flavor, triple) :: calls, s =>
    let r := file_types env ct flavor triple s
    let rest := file_types_iter env ct calls r.2.1
    (rest.1, r.2.2 + rest.2)

/-- Once the kind is stored, any number of further resolver calls leave
the table unchanged and issue zero probes. -/
theorem file_types_iter_stored (env : DiscoverEnv) (ct : CrateType)
    (calls : List (FileFlavor × String)) (s : CrateTypesMap)
    (v : Option (String × String)) (h : lookupCT s (CrateType.rewrite ct) = some v) :
    file_types_iter env ct calls s = (s, 0) := by
  induction calls with
  | nil => rfl
  | cons c calls ih =>
    cases c with
    | mk flavor triple =>
      have h2 := file_types_stored env ct flavor triple s v h
      simp [file_types_iter, h2, ih]

/-- Claim C5: once an artifact kind's pair has been probed and stored in
a capability record's memoization table it is never re-probed —
resolving the same kind any number of times (with any flavors and
triples) against the same record issues at most one compiler probe
in total, and exactly zero when the kind is already stored. The
hypothesis states the claim's premise: the kind is already stored, or
its single-kind probe is the kind of probe that gets stored (it
succeeds; a failed probe is a fatal error, stores nothing and aborts
resolution). -/
theorem claim_c5 (env : DiscoverEnv) (ct : CrateType)
    (calls : List (FileFlavor × String)) (s : CrateTypesMap)
    (h : (lookupCT s (CrateType.rewrite ct)).isSome = true
         ∨ discoverOk env (CrateType.rewrite ct) = true) :
    (file_types_iter env ct calls s).2 ≤ 1
    ∧ ((lookupCT s (CrateType.rewrite ct)).isSome = true →
        (file_types_iter env ct calls s).2 = 0) := by
  constructor
  · rcases hstored : lookupCT s (CrateType.rewrite ct) with _ | v
    · rcases h with hs | hok
      · rw [hstored] at hs
        simp at hs
      · cases calls with
        | nil => simp [file_types_iter]
        | cons c calls =>
          cases c with
          | mk flavor triple =>
            rcases hd : discover_crate_type env (CrateType.rewrite ct) with e | v
            · unfold discoverOk at hok
              rw [hd] at hok
              simp at hok
            · have h2 := file_types_miss env ct flavor triple s v hstored hd
              have h3 := file_types_iter_stored env ct calls
                (insertCT s (CrateType.rewrite ct) v) v
                (lookupCT_insert s (CrateType.rewrite ct) v)
              simp [file_types_iter, h2, h3]
    · simp [file_types_iter_stored env ct calls s v hstored]
  · intro hs
    obtain ⟨v, hv⟩ := Option.isSome_iff_exists.mp hs
    simp [file_types_iter_stored env ct calls s v hv]

/-- A concrete probe environment that answers the static-library kind
query with one well-formed file-name line. -/
def envRlibProbe : DiscoverEnv :=
  { cmd := "rustc - --crate-name ___ --print=file-names"
    exec := fun ct =>
      if ct = CrateType.Rlib then some { stdout := "lib___.rlib\n", stderr := "" }
      else none }

/-- Claim C5, witness: three successive resolutions of the generic
library kind (rewritten to the static library kind) against an empty
memoization table issue at most one probe in total. -/
theorem claim_c5_witness :
    (file_types_iter envRlibProbe CrateType.Lib
      [(FileFlavor.Linkable, "x86_64-unknown-linux-gnu"),
       (FileFlavor.Normal, "x86_64-unknown-linux-gnu"),
       (FileFlavor.Linkable, "aarch64-unknown-linux-gnu")] []).2 ≤ 1
    ∧ ((lookupCT ([] : CrateTypesMap) (CrateType.rewrite CrateType.Lib)).isSome = true →
        (file_types_iter envRlibProbe CrateType.Lib
          [(FileFlavor.Linkable, "x86_64-unknown-linux-gnu"),
           (FileFlavor.Normal, "x86_64-unknown-linux-gnu"),
           (FileFlavor.Linkable, "aarch64-unknown-linux-gnu")] []).2 = 0) :=
  claim_c5 envRlibProbe CrateType.Lib
    [(FileFlavor.Linkable, "x86_64-unknown-linux-gnu"),
     (FileFlavor.Normal, "x86_64-unknown-linux-gnu"),
     (FileFlavor.Linkable, "aarch64-unknown-linux-gnu")] []
    (Or.inr (by decide))

/-- Claim C6: whenever the probe's diagnostic stream carries an
`unsupported crate type` or `unknown crate type` message naming the
kind, `parse_crate_type` consumes no stdout line and yields the absent
result, and the resolver on a memoization miss stores the absent entry
for the kind, reports "not supported" with no descriptors, and consumes
nothing from the probe's stdout either. -/
theorem claim_c6 (ct : CrateType) (cmd output error : String) (lines : List String)
    (env : DiscoverEnv) (flavor : FileFlavor) (triple : String) (s : CrateTypesMap)
    (h : not_supported_in error ct = true)
    (hr : CrateType.rewrite ct = ct)
    (he : env.exec ct = some { stdout := output, stderr := error })
    (hs : lookupCT s ct = none) :
    parse_crate_type ct cmd output error lines = Except.ok (none, lines)
    ∧ file_types env ct flavor triple s = (Except.ok none, insertCT s ct none, 1) := by
  have hparse : ∀ (cmd2 out2 : String) (lns : List String),
      parse_crate_type ct cmd2 out2 error lns = Except.ok (none, lns) := by
    intro cmd2 out2 lns
    unfold parse_crate_type
    rw [if_pos h]
  refine ⟨hparse cmd output lines, ?_⟩
  have hd : discover_crate_type env ct = Except.ok none := by
    unfold discover_crate_type
    rw [he]
    simp [hparse, Except.map]
  simp [file_types, hr, hs, hd]

/-- A concrete probe environment whose compiler rejects the C-dynamic
library kind with an `unsupported crate type` diagnostic. -/
def envCdylibUnsupported : DiscoverEnv :=
  { cmd := "rustc - --crate-name ___ --print=file-names"
    exec := fun _ =>
      some { stdout := ""
             stderr := "error: cannot produce cdylib, unsupported crate type `cdylib`" } }

/-- Claim C6, witness: the theorem applied to the C-dynamic library
kind with that diagnostic, an arbitrary pending line list and an empty
memoization table. -/
theorem claim_c6_witness :
    parse_crate_type CrateType.Cdylib "rustc" ""
        "error: cannot produce cdylib, unsupported crate type `cdylib`"
        ["staticlib___.a"] =
      Except.ok (none, ["staticlib___.a"])
    ∧ file_types envCdylibUnsupported CrateType.Cdylib FileFlavor.Normal
        "x86_64-unknown-linux-gnu" [] =
      (Except.ok none, insertCT [] CrateType.Cdylib none, 1) :=
  claim_c6 CrateType.Cdylib "rustc" ""
    "error: cannot produce cdylib, unsupported crate type `cdylib`"
    ["staticlib___.a"] envCdylibUnsupported FileFlavor.Normal
    "x86_64-unknown-linux-gnu" [] (by decide) (by decide) rfl rfl

/-! ## Claims C7 and C10: metadata-only descriptors in whole-build resolution -/

/-- Every descriptor built by `build_file_types` carries either the
requested primary flavor or one of the companion flavors (auxiliary or
debug info). -/
theorem build_file_types_flavors (ct : CrateType) (flavor : FileFlavor)
    (triple pfx sfx : String) (f : FileType)
    (hf : f ∈ build_file_types ct flavor triple pfx sfx) :
    f.flavor = flavor ∨ f.flavor = FileFlavor.Auxiliary ∨ f.flavor = FileFlavor.DebugInfo := by
  simp only [build_file_types, List.mem_cons, List.mem_append] at hf
  rcases hf with rfl | (hwin | hwasm) | hdbg
  · exact Or.inl rfl
  · split_ifs at hwin <;>
      ((simp at hwin) <;> (try rcases hwin with hwin | hwin) <;> ((try subst hwin) <;> simp))
  · split_ifs at hwasm <;>
      ((simp at hwasm) <;> (try rcases hwasm with hwasm | hwasm) <;> ((try subst hwasm) <;> simp))
  · cases ct <;>
      first
        | (split_ifs at hdbg <;>
            ((simp at hdbg) <;> (try rcases hdbg with hdbg | hdbg) <;> ((try subst hdbg) <;> simp)))
        | (simp at hdbg)

/-- A successful, supported `file_types` resolution returns exactly a
`build_file_types` list for the rewritten kind and requested flavor. -/
theorem file_types_ok_some (env : DiscoverEnv) (ct : CrateType) (flavor : FileFlavor)
    (triple : String) (s : CrateTypesMap) (l : List FileType) (s' : CrateTypesMap) (k : Nat)
    (h : file_types env ct flavor triple s = (Except.ok (some l), s', k)) :
    ∃ pfx sfx, l = build_file_types (CrateType.rewrite ct) flavor triple pfx sfx := by
  simp only [file_types] at h
  rcases hl : lookupCT s (CrateType.rewrite ct) with _ | v
  · rw [hl] at h
    rcases hd : discover_crate_type env (CrateType.rewrite ct) with e | v
    · rw [hd] at h
      simp at h
    · rw [hd] at h
      cases v with
      | none => simp at h
      | some p =>
        cases p with
        | mk a b =>
          simp at h
          exact ⟨a, b, h.1.symm⟩
  · rw [hl] at h
    cases v with
    | none => simp at h
    | some p =>
      cases p with
      | mk a b =>
        simp at h
        exact ⟨a, b, h.1.symm⟩



/-- No descriptor collected by the `calc_rustc_outputs` loop is
metadata-only: the loop only emits primary, auxiliary and debug-info
descriptors. -/
theorem calc_outputs_loop_flavors (env : DiscoverEnv) (triple : String) :
    ∀ (cts : List CrateType) (s : CrateTypesMap) (fs : List FileType)
      (us : List CrateType) (s2 : CrateTypesMap) (k : Nat),
      calc_outputs_loop env triple cts s = (Except.ok (fs, us), s2, k) →
      ∀ f ∈ fs, f.flavor ≠ FileFlavor.Rmeta ∧ f.flavor ≠ FileFlavor.Rcheck := by
  intro cts
  induction cts with
  | nil =>
    intro s fs us s2 k h f hf
    simp only [calc_outputs_loop, Prod.mk.injEq, Except.ok.injEq] at h
    obtain ⟨⟨rfl, rfl⟩, rfl, rfl⟩ := h
    simp at hf
  | cons ct rest ih =>
    intro s fs us s2 k h f hf
    simp only [calc_outputs_loop] at h
    split at h
    · simp at h
    · rename_i v s1 k1 hft
      split at h
      · simp at h
      · rename_i fs2 us2 s3 k2 hrest
        split at h
        · simp only [Prod.mk.injEq, Except.ok.injEq] at h
          obtain ⟨⟨rfl, rfl⟩, rfl, rfl⟩ := h
          exact ih s1 fs2 us2 s3 k2 hrest f hf
        · rename_i types
          simp only [Prod.mk.injEq, Except.ok.injEq] at h
          obtain ⟨⟨rfl, rfl⟩, rfl, rfl⟩ := h
          rcases List.mem_append.mp hf with hmem | hmem
          · obtain ⟨pfx, sfx, rfl⟩ := file_types_ok_some env ct _ triple s types s1 k1 hft
            have hfl := build_file_types_flavors (CrateType.rewrite ct) _ triple pfx sfx f hmem
            rcases hfl with hfl | hfl | hfl
            · rw [hfl]
              constructor
              · split <;> simp
              · split <;> simp
            · rw [hfl]
              simp
            · rw [hfl]
              simp
          · exact ih s1 fs2 us2 s3 k2 hrest f hmem

/-- Claim C7: in a normal-build resolution that succeeds, the number of
metadata-only descriptors in the result is one exactly when at least one
(non-metadata) descriptor was produced and no requested crate type
requires upstream objects, and zero otherwise — so the metadata-only
descriptor is never duplicated; moreover when it is present it is the
appended final element. -/
theorem claim_c7 (env : DiscoverEnv) (crate_types : List CrateType) (triple : String)
    (s : CrateTypesMap) (fs : List FileType) (us : List CrateType)
    (s2 : CrateTypesMap) (k : Nat)
    (h : calc_rustc_outputs env crate_types triple s = (Except.ok (fs, us), s2, k)) :
    fs.countP (fun f => decide (f.flavor = FileFlavor.Rmeta)) =
      (if ((fs.any fun f => !decide (f.flavor = FileFlavor.Rmeta))
           && !(crate_types.any fun ct => ct.requires_upstream_objects)) = true
       then 1 else 0)
    ∧ (((fs.any fun f => !decide (f.flavor = FileFlavor.Rmeta))
           && !(crate_types.any fun ct => ct.requires_upstream_objects)) = true →
        fs.getLast? = some FileType.new_rmeta) := by
  simp only [calc_rustc_outputs] at h
  split at h
  · simp at h
  · rename_i result unsupported s1 k1 hloop
    have hnom := calc_outputs_loop_flavors env triple crate_types s result unsupported s1 k1 hloop
    have hcount0 : result.countP (fun f => decide (f.flavor = FileFlavor.Rmeta)) = 0 := by
      rw [List.countP_eq_zero]
      intro a ha
      simpa using (hnom a ha).1
    split at h
    · rename_i hcond
      simp only [Prod.mk.injEq, Except.ok.injEq] at h
      obtain ⟨⟨rfl, rfl⟩, rfl, rfl⟩ := h
      rw [Bool.and_eq_true] at hcond
      obtain ⟨hne, hup⟩ := hcond
      have hres_ne : result ≠ [] := by
        intro hr
        subst hr
        simp at hne
      have hany : ((result ++ [FileType.new_rmeta]).any
          fun f => !decide (f.flavor = FileFlavor.Rmeta)) = true := by
        obtain ⟨x, hx⟩ := List.exists_mem_of_ne_nil result hres_ne
        rw [List.any_eq_true]
        exact ⟨x, List.mem_append_left _ hx, by simp [(hnom x hx).1]⟩
      refine ⟨?_, fun _ => by simp [List.getLast?_concat]⟩
      rw [List.countP_append, hcount0, hany, hup]
      simp [FileType.new_rmeta]
    · rename_i hcond
      simp only [Prod.mk.injEq, Except.ok.injEq] at h
      obtain ⟨⟨rfl, rfl⟩, rfl, rfl⟩ := h
      constructor
      · rw [hcount0]
        cases hemp : result.isEmpty
        · have hupstream : (crate_types.any fun ct => ct.requires_upstream_objects) = true := by
            by_contra hA
            apply hcond
            rw [hemp]
            simp only [Bool.not_eq_true] at hA
            rw [hA]
            rfl
          rw [hupstream]
          simp
        · cases result with
          | nil => simp
          | cons a l => simp at hemp
      · intro hcond2
        exfalso
        apply hcond
        rw [Bool.and_eq_true] at hcond2
        obtain ⟨h1, h2⟩ := hcond2
        obtain ⟨x, hx, _⟩ := List.any_eq_true.mp h1
        have hemp : result.isEmpty = false := by
          cases result with
          | nil => simp at hx
          | cons a l => rfl
        rw [hemp, h2]
        rfl

/-- Claim C10: every metadata-only descriptor in any successful
resolver output — whichever compile mode, even one whose requested
crate types are executables — has no associated crate type, filename
start `lib`, the hyphen-to-underscore rewrite flag enabled, and ending
`.rmeta` for the full-check variant and `.rcheck` for the lightweight
variant. -/
theorem claim_c10 (env : DiscoverEnv) (mode : CompileMode) (tcts : List CrateType)
    (triple : String) (s : CrateTypesMap) (r : List FileType) (us : List CrateType)
    (s2 : CrateTypesMap) (k : Nat)
    (h : rustc_outputs env mode tcts triple s = some (Except.ok (r, us), s2, k)) :
    ∀ f ∈ r, (f.flavor = FileFlavor.Rmeta ∨ f.flavor = FileFlavor.Rcheck) →
      f.crate_type = none ∧ f.pfx = "lib" ∧ f.should_replace_hyphens = true ∧
      (f.flavor = FileFlavor.Rmeta → f.suffix = ".rmeta") ∧
      (f.flavor = FileFlavor.Rcheck → f.suffix = ".rcheck") := by
  intro f hf hfl
  cases mode with
  | Build =>
    simp only [rustc_outputs, Option.some.injEq] at h
    simp only [calc_rustc_outputs] at h
    split at h
    · simp at h
    · rename_i result unsupported s1 k1 hloop
      have hnom := calc_outputs_loop_flavors env triple tcts s result unsupported s1 k1 hloop
      split at h
      · simp only [Prod.mk.injEq, Except.ok.injEq] at h
        obtain ⟨⟨rfl, rfl⟩, rfl, rfl⟩ := h
        rcases List.mem_append.mp hf with hm | hm
        · rcases hfl with hfl | hfl
          · exact absurd hfl (hnom f hm).1
          · exact absurd hfl (hnom f hm).2
        · simp at hm
          subst hm
          exact ⟨rfl, rfl, rfl, fun _ => rfl,
            fun hq => by simp [FileType.new_rmeta] at hq⟩
      · simp only [Prod.mk.injEq, Except.ok.injEq] at h
        obtain ⟨⟨rfl, rfl⟩, rfl, rfl⟩ := h
        rcases hfl with hfl | hfl
        · exact absurd hfl (hnom f hf).1
        · exact absurd hfl (hnom f hf).2
  | Test =>
    simp only [rustc_outputs, Option.some.injEq] at h
    split at h
    · simp at h
    · rename_i fts s1 k1 hft
      simp only [Prod.mk.injEq, Except.ok.injEq] at h
      obtain ⟨⟨rfl, rfl⟩, rfl, rfl⟩ := h
      obtain ⟨pfx, sfx, rfl⟩ :=
        file_types_ok_some env CrateType.Bin FileFlavor.Normal triple s fts s1 k1 hft
      have hb := build_file_types_flavors _ _ triple pfx sfx f hf
      rcases hb with h1 | h1 | h1 <;> rcases hfl with h2 | h2 <;> (rw [h1] at h2; simp at h2)
    · simp only [Prod.mk.injEq, Except.ok.injEq] at h
      obtain ⟨⟨rfl, rfl⟩, rfl, rfl⟩ := h
      simp at hf
  | Bench =>
    simp only [rustc_outputs, Option.some.injEq] at h
    split at h
    · simp at h
    · rename_i fts s1 k1 hft
      simp only [Prod.mk.injEq, Except.ok.injEq] at h
      obtain ⟨⟨rfl, rfl⟩, rfl, rfl⟩ := h
      obtain ⟨pfx, sfx, rfl⟩ :=
        file_types_ok_some env CrateType.Bin FileFlavor.Normal triple s fts s1 k1 hft
      have hb := build_file_types_flavors _ _ triple pfx sfx f hf
      rcases hb with h1 | h1 | h1 <;> rcases hfl with h2 | h2 <;> (rw [h1] at h2; simp at h2)
    · simp only [Prod.mk.injEq, Except.ok.injEq] at h
      obtain ⟨⟨rfl, rfl⟩, rfl, rfl⟩ := h
      simp at hf
  | Check rustc_check =>
    simp only [rustc_outputs, Option.some.injEq, Prod.mk.injEq, Except.ok.injEq] at h
    obtain ⟨⟨rfl, rfl⟩, rfl, rfl⟩ := h
    cases rustc_check
    · simp at hf
      subst hf
      exact ⟨rfl, rfl, rfl, fun _ => rfl,
        fun hq => by simp [FileType.new_rmeta] at hq⟩
    · simp at hf
      subst hf
      exact ⟨rfl, rfl, rfl,
        fun hq => by simp [FileType.new_rcheck] at hq, fun _ => rfl⟩
  | Doc => simp [rustc_outputs] at h
  | Doctest => simp [rustc_outputs] at h
  | RunCustomBuild => simp [rustc_outputs] at h

/-- Claim C7, witness: resolving the static library kind against a
populated memoization table yields a primary `.rlib` descriptor plus
exactly one appended metadata-only descriptor. -/
theorem claim_c7_witness :
    ([{ flavor := FileFlavor.Linkable, crate_type := some CrateType.Rlib, suffix := ".rlib",
        pfx := "lib", should_replace_hyphens := true },
      FileType.new_rmeta] : List FileType).countP
        (fun f => decide (f.flavor = FileFlavor.Rmeta)) =
      (if ((([{ flavor := FileFlavor.Linkable, crate_type := some CrateType.Rlib,
                suffix := ".rlib", pfx := "lib", should_replace_hyphens := true },
              FileType.new_rmeta] : List FileType).any
              fun f => !decide (f.flavor = FileFlavor.Rmeta))
           && !(([CrateType.Rlib] : List CrateType).any
              fun ct => ct.requires_upstream_objects)) = true
       then 1 else 0)
    ∧ (((([{ flavor := FileFlavor.Linkable, crate_type := some CrateType.Rlib,
             suffix := ".rlib", pfx := "lib", should_replace_hyphens := true },
           FileType.new_rmeta] : List FileType).any
           fun f => !decide (f.flavor = FileFlavor.Rmeta))
        && !(([CrateType.Rlib] : List CrateType).any
           fun ct => ct.requires_upstream_objects)) = true →
        ([{ flavor := FileFlavor.Linkable, crate_type := some CrateType.Rlib,
            suffix := ".rlib", pfx := "lib", should_replace_hyphens := true },
          FileType.new_rmeta] : List FileType).getLast? = some FileType.new_rmeta) :=
  claim_c7 envNoProbe [CrateType.Rlib] "x86_64-unknown-linux-gnu"
    [(CrateType.Rlib, some ("lib", ".rlib"))]
    [{ flavor := FileFlavor.Linkable, crate_type := some CrateType.Rlib, suffix := ".rlib",
       pfx := "lib", should_replace_hyphens := true }, FileType.new_rmeta]
    [] [(CrateType.Rlib, some ("lib", ".rlib"))] 0 rfl

/-- Claim C10, witness: the theorem applied to a lightweight-check
resolution for an executable target, evaluated at its single
metadata-only descriptor. -/
theorem claim_c10_witness :
    FileType.new_rcheck.crate_type = none ∧ FileType.new_rcheck.pfx = "lib" ∧
    FileType.new_rcheck.should_replace_hyphens = true ∧
    (FileType.new_rcheck.flavor = FileFlavor.Rmeta → FileType.new_rcheck.suffix = ".rmeta") ∧
    (FileType.new_rcheck.flavor = FileFlavor.Rcheck → FileType.new_rcheck.suffix = ".rcheck") :=
  claim_c10 envNoProbe (CompileMode.Check true) [CrateType.Bin] "x86_64-unknown-linux-gnu"
    [] [FileType.new_rcheck] [] [] 0 rfl FileType.new_rcheck
    (List.mem_singleton.mpr rfl) (Or.inr rfl)

/-! ## Claim C9: separator round-trip -/

/-- Locating the separator in `p ++ sep3 ++ s` finds exactly the
explicitly appended occurrence, provided `p` neither contains the
separator nor ends with an underscore (an underscore at the end of `p`
would let an earlier, overlapping occurrence win, since Rust's `split`
takes the leftmost match). -/
theorem splitFirst_append_sep (s : List Char) :
    ∀ p : List Char, splitFirst sep3 p = none → p.getLast? ≠ some '_' →
      splitFirst sep3 (p ++ sep3 ++ s) = some (p, s) := by
  intro p
  induction p with
  | nil =>
    intro _ _
    simp [splitFirst, sep3, List.isPrefixOf]
  | cons c p ih =>
    intro hnone hlast
    have hpre : sep3.isPrefixOf (c :: p) = false := by
      cases hp : sep3.isPrefixOf (c :: p)
      · rfl
      · rw [splitFirst, if_pos hp] at hnone
        simp at hnone
    have hnone' : splitFirst sep3 p = none := by
      rw [splitFirst, if_neg (by simp [hpre])] at hnone
      rcases hsp : splitFirst sep3 p with _ | ab
      · rfl
      · rw [hsp] at hnone
        rcases ab with ⟨a, b⟩
        simp at hnone
    have hlast' : p.getLast? ≠ some '_' := by
      cases p with
      | nil => simp
      | cons d p2 =>
        intro hbad
        apply hlast
        rw [List.getLast?_cons_cons]
        exact hbad
    have hc_or : sep3.isPrefixOf (c :: (p ++ sep3 ++ s)) = false := by
      cases p with
      | nil =>
        have hc : c ≠ '_' := by
          simp only [List.getLast?_singleton, ne_eq, Option.some.injEq] at hlast
          exact hlast
        have hbeq : ('_' == c) = false := by
          rw [beq_eq_false_iff_ne]
          exact fun he => hc he.symm
        simp [sep3, List.isPrefixOf, hbeq]
      | cons d p2 =>
        cases p2 with
        | nil =>
          have hd : d ≠ '_' := by
            simp only [List.getLast?_cons_cons, List.getLast?_singleton, ne_eq,
              Option.some.injEq] at hlast
            exact hlast
          have hbeq : ('_' == d) = false := by
            rw [beq_eq_false_iff_ne]
            exact fun he => hd he.symm
          simp [sep3, List.isPrefixOf, hbeq]
        | cons e p3 =>
          cases hcb : ('_' == c)
          · simp [sep3, List.isPrefixOf, hcb]
          · cases hdb : ('_' == d)
            · simp [sep3, List.isPrefixOf, hcb, hdb]
            · cases heb : ('_' == e)
              · simp [sep3, List.isPrefixOf, hcb, hdb, heb]
              · exfalso
                have hyes : sep3.isPrefixOf (c :: d :: e :: p3) = true := by
                  simp [sep3, List.isPrefixOf, hcb, hdb, heb]
                rw [hpre] at hyes
                simp at hyes
    simp only [List.cons_append, List.append_assoc] at hc_or ⊢
    rw [splitFirst, if_neg (by simp [hc_or])]
    have hih := ih hnone' hlast'
    simp only [List.append_assoc] at hih
    rw [hih]

/-- Claim C9, amended: for every pair of filename-start and
filename-ending strings such that neither contains the triple-underscore
separator, the start does not end with an underscore, and the joined
line is unchanged by whitespace trimming, parsing the single joined line
recovers exactly the original pair (the empty start and the empty
ending satisfy these conditions). -/
theorem claim_c9_amended (ct : CrateType) (cmd out : String) (p s : String)
    (hp : splitFirst sep3 p.data = none)
    (hlast : p.data.getLast? ≠ some '_')
    (hs : splitFirst sep3 s.data = none)
    (ht : trimChars (p.data ++ sep3 ++ s.data) = p.data ++ sep3 ++ s.data) :
    parse_crate_type ct cmd out "" [String.mk (p.data ++ sep3 ++ s.data)] =
      Except.ok (some (p, s), []) := by
  have hns : not_supported_in "" ct = false := rfl
  have hkey := splitFirst_append_sep s.data p.data hp hlast
  simp only [parse_crate_type, hns, Bool.false_eq_true, if_false, parseFileNameLine,
    show (String.mk (p.data ++ sep3 ++ s.data)).data = p.data ++ sep3 ++ s.data from rfl,
    ht, hkey, hs]

/-- Claim C9, counterexample. The claim quantifies over *every* pair of
strings, but when the two parts are `lib_` and `so` the joined line is
`lib____so`, in which the leftmost separator occurrence starts inside
the first part; parsing recovers `("lib", "_so")`, not the original
`("lib_", "so")`. (Trimming similarly corrupts parts with outer
whitespace.) -/
theorem claim_c9_counterexample :
    ("lib_" ++ "___" ++ "so" : String) = "lib____so"
    ∧ parse_crate_type CrateType.Rlib "rustc" "" "" ["lib____so"] =
        Except.ok (some ("lib", "_so"), [])
    ∧ (("lib", "_so") : String × String) ≠ ("lib_", "so") := by
  refine ⟨rfl, rfl, by decide⟩

/-- Claim C9, witness: the amended theorem applied to the empty start
and empty ending — the joined line `___` parses back to two empty
parts, the convention for suffix-less executables. -/
theorem claim_c9_witness :
    parse_crate_type CrateType.Bin "rustc" "" ""
        [String.mk (("" : String).data ++ sep3 ++ ("" : String).data)] =
      Except.ok (some ("", ""), []) :=
  claim_c9_amended CrateType.Bin "rustc" "" "" ""
    (by decide) (by decide) (by decide) (by decide)
